import Mathlib

/-!
Verification of the `sqlwrapper` repository: a shallow embedding of the
MySQL driver capability (`src/dbcontext/drvs/mysql/mysql.go`) and of the
statement directives (`src/stmt/directive.go`,
`src/stmt/directive/replace.go`), with theorems settling the frozen
claims about the specification.

Modelling conventions:
- Go `panic(...)` is modelled by a dedicated error constructor (`.panic`),
  distinct from an ordinary returned `error` (`.err`), so that "fatal,
  unrecoverable" abort paths stay distinguishable from recoverable ones.
- A live database connection is modelled as a function from a query
  string to either a database error or the per-column low-level metadata
  that the Go driver reports (scan type, database type name, flags,
  display length).
- Go's `%+q` formatting of a string is modelled as plain double quoting
  (faithful for names without characters needing escapes).
-/

/-- The Go driver scan types cased on by `ExtractQueryResultColumns`
(mysql.go lines 46-63).  `unknown` stands for every `reflect.Type` not
equal to one of the explicitly listed scan types (it falls into the
`default:` branch of the switch, as `scanTypeUnknown` does). -/
inductive ScanType where
  | float32
  | float64
  | int8
  | int16
  | int32
  | int64
  | nullFloat
  | nullInt
  | nullTime
  | uint8
  | uint16
  | uint32
  | uint64
  | rawBytes
  | unknown
deriving DecidableEq, Repr

/-- `flagUnsigned = 1 << 5`, copied by mysql.go line 67 from the Go MySQL
driver constants. -/
def flagUnsigned : Nat := 2 ^ 5

/-- Payload of the `bad()` panic in `ExtractQueryResultColumns`
(mysql.go lines 109-111): the panic message is built from the scan type
and the database type name of the offending column. -/
structure ClassifyErr where
  scanType : ScanType
  databaseTypeName : String
deriving DecidableEq, Repr

/-- The classification decision table at the heart of
`ExtractQueryResultColumns` (mysql.go lines 113-202): given one result
column's scan type, database-reported type name, unsigned flag and
display length, return the canonical data type string, or the `bad()`
panic payload when the pair is not covered by the table. -/
def classifyColumn (scanType : ScanType) (databaseTypeName : String)
    (isUnsigned : Bool) (length : Nat) : Except ClassifyErr String :=
  match scanType with
  | .float32 => .ok "float32"
  | .float64 => .ok "float64"
  | .nullFloat =>
    match databaseTypeName with
    | "FLOAT" => .ok "float32"
    | "DOUBLE" => .ok "float64"
    | _ => .error ⟨scanType, databaseTypeName⟩
  | .int8 =>
    if length == 1 then .ok "bool" else .ok "int8"
  | .int16 => .ok "int16"
  | .int32 => .ok "int32"
  | .int64 => .ok "int64"
  | .uint8 => .ok "uint8"
  | .uint16 => .ok "uint16"
  | .uint32 => .ok "uint32"
  | .uint64 => .ok "uint64"
  | .nullInt =>
    match databaseTypeName with
    | "TINYINT" =>
      if isUnsigned then .ok "uint8"
      else if length == 1 then .ok "bool" else .ok "int8"
    | "SMALLINT" => if isUnsigned then .ok "uint16" else .ok "int16"
    | "YEAR" => if isUnsigned then .ok "uint16" else .ok "int16"
    | "MEDIUMINT" => if isUnsigned then .ok "uint32" else .ok "int32"
    | "INT" => if isUnsigned then .ok "uint32" else .ok "int32"
    | "BIGINT" => if isUnsigned then .ok "uint64" else .ok "int64"
    | _ => .error ⟨scanType, databaseTypeName⟩
  | .nullTime => .ok "time"
  | .rawBytes =>
    match databaseTypeName with
    | "BIT" => .ok "bit"
    | "JSON" => .ok "json"
    | _ => .ok "string"
  | .unknown => .error ⟨scanType, databaseTypeName⟩

/-- `DataTypes`, the full list of canonical data types of the mysql drv
(mysql.go lines 21-44); `DataTypes()` the method (lines 427-429) returns
exactly this list. -/
def DataTypes : List String :=
  [ "float32", "float64",
    "bool", "int8", "uint8", "int16", "uint16",
    "int32", "uint32", "int64", "uint64",
    "time",
    "bit", "json", "string" ]

/-- The low-level metadata the Go driver reports for one result column:
scan type and database type name from the public `sql.ColumnType` API,
`flags` and `length` read from the driver's private fields (mysql.go
lines 84-105). -/
structure ColumnMeta where
  scanType : ScanType
  databaseTypeName : String
  flags : Nat
  length : Nat
deriving DecidableEq, Repr

/-- `isUnsigned := (flags & flagUnsigned) != 0` (mysql.go line 102). -/
def ColumnMeta.isUnsigned (m : ColumnMeta) : Bool :=
  (m.flags &&& flagUnsigned) != 0

/-- One extracted column (`dbcontext.Col`): the driver-reported column
metadata paired with the canonical data type assigned to it
(mysql.go lines 204-207). -/
structure Col where
  meta : ColumnMeta
  dataType : String
deriving DecidableEq, Repr

/-- Classification of one column from its reported metadata, deriving
the unsigned flag from `flags` exactly as the loop body does. -/
def classifyMeta (m : ColumnMeta) : Except ClassifyErr String :=
  classifyColumn m.scanType m.databaseTypeName m.isUnsigned m.length

/-- The per-column loop of `ExtractQueryResultColumns` (mysql.go lines
82-209): classify each column in order, aborting at the first column the
decision table does not cover. -/
def extractColumnsFromMeta : List ColumnMeta → Except ClassifyErr (List Col)
  | [] => .ok []
  | m :: ms =>
    match classifyMeta m with
    | .error e => .error e
    | .ok dataType =>
      match extractColumnsFromMeta ms with
      | .error e => .error e
      | .ok rest => .ok ({ meta := m, dataType := dataType } :: rest)

/-- A live connection, modelled as a function from a query string to
either a database error (query failure) or the driver-reported metadata
of the result columns. -/
def Conn : Type := String → Except String (List ColumnMeta)

/-- Errors of `ExtractQueryResultColumns`: a returned database error, or
the propagated `bad()` classification panic. -/
inductive QueryErr where
  | dbErr (msg : String)
  | classifyPanic (e : ClassifyErr)
deriving DecidableEq, Repr

/-- `ExtractQueryResultColumns` (mysql.go lines 70-213): run the query,
then classify every result column by the decision table. -/
def extractQueryResultColumns (conn : Conn) (query : String) :
    Except QueryErr (List Col) :=
  match conn query with
  | .error e => .error (.dbErr e)
  | .ok metas =>
    match extractColumnsFromMeta metas with
    | .error e => .error (.classifyPanic e)
    | .ok columns => .ok columns

/-- `Quote` (mysql.go lines 431-433): backtick quoting of identifiers. -/
def quote (identifier : String) : String := "`" ++ identifier ++ "`"

/-- `ExtractColumns` (mysql.go lines 244-246): delegate to
`ExtractQueryResultColumns` on a `SELECT *` over the backtick-quoted
table name. -/
def extractColumns (conn : Conn) (tableName : String) :
    Except QueryErr (List Col) :=
  extractQueryResultColumns conn ("SELECT * FROM `" ++ tableName ++ "`")

/-- Errors of the catalog extraction operations: `.panic` models a Go
`panic(...)` (fatal, unrecoverable), `.err` a returned `error`. -/
inductive ExtractErr where
  | panic (msg : String)
  | err (msg : String)
deriving DecidableEq, Repr

/-- Go `%+q` of an identifier, modelled as plain double quoting. -/
def goQuote (s : String) : String := "\"" ++ s ++ "\""

/-- One row of the `INFORMATION_SCHEMA.STATISTICS` query issued by
`ExtractIndex` (mysql.go lines 312-319): `NON_UNIQUE`, `COLUMN_NAME`,
`SEQ_IN_INDEX`. -/
structure IndexRow where
  nonUnique : Bool
  columnName : String
  seq : Nat
deriving DecidableEq, Repr

/-- The row loop of `ExtractIndex` (mysql.go lines 325-341): carry the
previous sequence number and the last scanned `NON_UNIQUE` value, panic
on a sequence gap, and collect column names in row order. -/
def indexLoop (prevSeq : Nat) (nonUnique : Bool) :
    List IndexRow → Except ExtractErr (List String × Bool)
  | [] => .ok ([], nonUnique)
  | r :: rs =>
    if r.seq ≠ prevSeq + 1 then
      .error (.panic ("Bad SEQ_IN_INDEX, prev is " ++ toString prevSeq ++
        ", current is " ++ toString r.seq))
    else
      match indexLoop r.seq r.nonUnique rs with
      | .error e => .error e
      | .ok (names, nu) => .ok (r.columnName :: names, nu)

/-- The result of a successful `ExtractIndex`. -/
structure IndexResult where
  columnNames : List String
  isPrimary : Bool
  isUnique : Bool
deriving DecidableEq, Repr

/-- `ExtractIndex` (mysql.go lines 306-352), abstracted over the rows the
catalog query returns for `(tableName, indexName)`: run the row loop
(`nonUnique` starts `true`, `prevSeq` starts 0), fail if no rows were
collected, else report `isPrimary := indexName == "PRIMARY"` and
`isUnique := !nonUnique`. -/
def extractIndex (tableName indexName : String) (rows : List IndexRow) :
    Except ExtractErr IndexResult :=
  match indexLoop 0 true rows with
  | .error e => .error e
  | .ok (columnNames, nonUnique) =>
    if columnNames.isEmpty then
      .error (.err ("Index " ++ goQuote indexName ++ " in table " ++
        goQuote tableName ++ " not found"))
    else
      .ok { columnNames := columnNames,
            isPrimary := indexName == "PRIMARY",
            isUnique := !nonUnique }

/-- One row of the `INFORMATION_SCHEMA.KEY_COLUMN_USAGE` query issued by
`ExtractFK` (mysql.go lines 388-394): `COLUMN_NAME`, `ORDINAL_POSITION`,
`REFERENCED_TABLE_NAME`, `REFERENCED_COLUMN_NAME`. -/
structure FKRow where
  columnName : String
  pos : Nat
  refTableName : String
  refColumnName : String
deriving DecidableEq, Repr

/-- The result of a successful `ExtractFK`. -/
structure FKResult where
  columnNames : List String
  refTableName : String
  refColumnNames : List String
deriving DecidableEq, Repr

/-- The row loop of `ExtractFK` (mysql.go lines 400-417): carry the
previous ordinal position and the last scanned referenced table name,
panic on a position gap, and collect local and referenced column names
in row order. -/
def fkLoop (prevPos : Nat) (refTable : String) :
    List FKRow → Except ExtractErr (List String × String × List String)
  | [] => .ok ([], refTable, [])
  | r :: rs =>
    if r.pos ≠ prevPos + 1 then
      .error (.panic ("Bad ORDINAL_POSITION, prev is " ++ toString prevPos ++
        ", current is " ++ toString r.pos))
    else
      match fkLoop r.pos r.refTableName rs with
      | .error e => .error e
      | .ok (names, rt, refNames) =>
        .ok (r.columnName :: names, rt, r.refColumnName :: refNames)

/-- `ExtractFK` (mysql.go lines 382-425), abstracted over the rows the
catalog query returns for `(tableName, fkName)`. -/
def extractFK (tableName fkName : String) (rows : List FKRow) :
    Except ExtractErr FKResult :=
  match fkLoop 0 "" rows with
  | .error e => .error e
  | .ok (columnNames, refTableName, refColumnNames) =>
    if columnNames.isEmpty then
      .error (.err ("FK " ++ goQuote fkName ++ " in table " ++
        goQuote tableName ++ " not found"))
    else
      .ok { columnNames := columnNames,
            refTableName := refTableName,
            refColumnNames := refColumnNames }

/-- A reported ordinal sequence is contiguous continuing from `prev`:
each entry is the previous one plus one. -/
def seqContiguous (prev : Nat) : List Nat → Bool
  | [] => true
  | s :: ss => (s == prev + 1) && seqContiguous s ss

/-- An XML element as the directives see it (via `etree`): its text
content and its attribute key/value pairs. -/
structure Element where
  text : String
  attrs : List (String × String)
deriving DecidableEq, Repr

/-- `etree`'s `SelectAttrValue(key, dflt)`: the value of the first
attribute with the given key, or the default if there is none. -/
def Element.selectAttrValue (e : Element) (key dflt : String) : String :=
  match e.attrs.find? (fun p => p.1 == key) with
  | some p => p.2
  | none => dflt

/-- `textDirective` (stmt/directive.go lines 29-32): holds the raw
character data of a literal text node. -/
structure TextDirective where
  data : String
deriving DecidableEq, Repr

/-- `textDirective.Initialize` (stmt/directive.go lines 39-42): store
the char-data of the token; it always succeeds. -/
def textInitialize (charData : String) : TextDirective := ⟨charData⟩

/-- `replaceDirective` (stmt/directive/replace.go lines 11-14): the
original expression and its replacement text. -/
structure ReplaceDirective where
  origin : String
  withVal : String
deriving DecidableEq, Repr

/-- `replaceDirective.Initialize` (stmt/directive/replace.go lines
16-25): read the "with" attribute (default ""); fail without setting any
field when it is empty, else store the element text as `origin` and the
attribute value as `with`. -/
def replaceInitialize (elem : Element) : Except String ReplaceDirective :=
  let w := elem.selectAttrValue "with" ""
  if w == "" then
    .error "Missing \x27with\x27 attribute in <replace> directive"
  else
    .ok { origin := elem.text, withVal := w }

/-- A directive instance: the built-in literal text directive or the
registered replace directive. -/
inductive StmtDirective where
  | text (d : TextDirective)
  | replace (d : ReplaceDirective)
deriving DecidableEq, Repr

/-- `Generate()`: the fragment contributed to the final query
(stmt/directive.go lines 44-46; stmt/directive/replace.go lines 27-29). -/
def StmtDirective.generate : StmtDirective → Except String String
  | .text d => .ok d.data
  | .replace d => .ok d.withVal

/-- `GenerateQuery()`: the fragment contributed to the probe query
(stmt/directive.go lines 48-50; stmt/directive/replace.go lines 31-33). -/
def StmtDirective.generateQuery : StmtDirective → Except String String
  | .text d => .ok d.data
  | .replace d => .ok d.origin

/-- `ProcessQueryResult()` (stmt/directive.go lines 52-54;
stmt/directive/replace.go lines 35-37): both directives leave the
discovered column names and column types unchanged and return nil. -/
def StmtDirective.processQueryResult (d : StmtDirective)
    (resultColumnNames : List String) (resultColumnTypes : List ColumnMeta) :
    Except String (List String × List ColumnMeta) :=
  match d with
  | .text _ => .ok (resultColumnNames, resultColumnTypes)
  | .replace _ => .ok (resultColumnNames, resultColumnTypes)

/-- Concatenation, in document order, of the fragments produced by one
of the two generation calls over a directive chain (the assembly steps
1 and 4 of the statement compiler). -/
def concatGen (f : StmtDirective → Except String String) :
    List StmtDirective → Except String String
  | [] => .ok ""
  | d :: ds =>
    match f d with
    | .error e => .error e
    | .ok s =>
      match concatGen f ds with
      | .error e => .error e
      | .ok rest => .ok (s ++ rest)

/-- A directive instance is the built-in literal text directive. -/
def StmtDirective.isTextDirective : StmtDirective → Bool
  | .text _ => true
  | .replace _ => false

/-- C1: a length-1 signed TINYINT column classifies as "bool" on the
NOT NULL path (scan type int8, display length 1, regardless of the
reported type name and unsigned flag, which that branch does not
consult) and on the NULLable path (scan type NullInt64 with database
type name TINYINT, unsigned flag false, length 1); both paths reach the
same decision. -/
theorem tinyint1_signed_classifies_bool (name : String) (u : Bool) :
    classifyColumn .int8 name u 1 = .ok "bool" ∧
    classifyColumn .nullInt "TINYINT" false 1 = .ok "bool" ∧
    classifyColumn .int8 name u 1 = classifyColumn .nullInt "TINYINT" false 1 := by
  exact ⟨rfl, rfl, rfl⟩

/-- C2: every canonical type name the classification decision table of
`ExtractQueryResultColumns` can ever assign to a column is a member of
the `DataTypes` list advertised by `DataTypes()`. -/
theorem classifier_output_in_DataTypes (st : ScanType) (name : String)
    (u : Bool) (len : Nat) (dt : String)
    (h : classifyColumn st name u len = .ok dt) : dt ∈ DataTypes := by
  cases st <;> simp only [classifyColumn] at h <;>
    (try split at h) <;> (try split at h) <;> (try split at h) <;>
    simp_all [DataTypes]

/-- Witness for C2 at a concrete input. -/
theorem classifier_output_in_DataTypes_witness :
    classifyColumn .int16 "SMALLINT" false 0 = .ok "int16" ∧
    "int16" ∈ DataTypes :=
  ⟨rfl, classifier_output_in_DataTypes .int16 "SMALLINT" false 0 "int16" rfl⟩

/-- C6: when the catalog query returns zero rows for a named index or
foreign key, `ExtractIndex` / `ExtractFK` return an error naming the
missing index or foreign key and the table, and no column data. -/
theorem extract_zero_rows_not_found (tableName indexName fkName : String) :
    extractIndex tableName indexName [] =
      .error (.err ("Index " ++ goQuote indexName ++ " in table " ++
        goQuote tableName ++ " not found")) ∧
    extractFK tableName fkName [] =
      .error (.err ("FK " ++ goQuote fkName ++ " in table " ++
        goQuote tableName ++ " not found")) :=
  ⟨rfl, rfl⟩

/-- C8: `ExtractColumns` on a table is exactly `ExtractQueryResultColumns`
on the `SELECT *` query over the backtick-quoted table name: table column
discovery and arbitrary-query column discovery are one algorithm. -/
theorem extractColumns_refines_extractQueryResultColumns
    (conn : Conn) (tableName : String) :
    extractColumns conn tableName =
      extractQueryResultColumns conn ("SELECT * FROM " ++ quote tableName) := by
  unfold extractColumns quote
  rw [← String.append_assoc, ← String.append_assoc]
  rfl

/-- If the reported sequence numbers are not contiguous continuing from
`prevSeq`, the `ExtractIndex` row loop panics. -/
theorem indexLoop_noncontiguous (rows : List IndexRow) :
    ∀ prevSeq nonUnique,
      seqContiguous prevSeq (rows.map IndexRow.seq) = false →
      ∃ msg, indexLoop prevSeq nonUnique rows = .error (.panic msg) := by
  induction rows with
  | nil =>
    intro prevSeq nonUnique h
    simp [seqContiguous] at h
  | cons r rs ih =>
    intro prevSeq nonUnique h
    simp only [List.map_cons, seqContiguous, Bool.and_eq_false_eq_eq_false_or_eq_false,
      beq_eq_false_iff_ne, ne_eq] at h
    by_cases hseq : r.seq = prevSeq + 1
    · have htail : seqContiguous r.seq (rs.map IndexRow.seq) = false := by
        rcases h with h | h
        · exact absurd hseq h
        · exact h
      obtain ⟨msg, hmsg⟩ := ih r.seq r.nonUnique htail
      rw [hseq] at hmsg
      refine ⟨msg, ?_⟩
      simp [indexLoop, hseq, hmsg]
    · exact ⟨"Bad SEQ_IN_INDEX, prev is " ++ toString prevSeq ++
        ", current is " ++ toString r.seq, by simp [indexLoop, hseq]⟩

/-- If the reported ordinal positions are not contiguous continuing from
`prevPos`, the `ExtractFK` row loop panics. -/
theorem fkLoop_noncontiguous (rows : List FKRow) :
    ∀ prevPos refTable,
      seqContiguous prevPos (rows.map FKRow.pos) = false →
      ∃ msg, fkLoop prevPos refTable rows = .error (.panic msg) := by
  induction rows with
  | nil =>
    intro prevPos refTable h
    simp [seqContiguous] at h
  | cons r rs ih =>
    intro prevPos refTable h
    simp only [List.map_cons, seqContiguous, Bool.and_eq_false_eq_eq_false_or_eq_false,
      beq_eq_false_iff_ne, ne_eq] at h
    by_cases hpos : r.pos = prevPos + 1
    · have htail : seqContiguous r.pos (rs.map FKRow.pos) = false := by
        rcases h with h | h
        · exact absurd hpos h
        · exact h
      obtain ⟨msg, hmsg⟩ := ih r.pos r.refTableName htail
      rw [hpos] at hmsg
      refine ⟨msg, ?_⟩
      simp [fkLoop, hpos, hmsg]
    · exact ⟨"Bad ORDINAL_POSITION, prev is " ++ toString prevPos ++
        ", current is " ++ toString r.pos, by simp [fkLoop, hpos]⟩

/-- C3: if the sequence numbers reported by the catalog for an index
(`SEQ_IN_INDEX`) or a foreign key (`ORDINAL_POSITION`) are not contiguous
and 1-based, `ExtractIndex` / `ExtractFK` abort with the fatal panic
rather than returning a partial result. -/
theorem noncontiguous_seq_fatal (tableName indexName fkName : String)
    (irows : List IndexRow) (frows : List FKRow) :
    (seqContiguous 0 (irows.map IndexRow.seq) = false →
      ∃ msg, extractIndex tableName indexName irows = .error (.panic msg)) ∧
    (seqContiguous 0 (frows.map FKRow.pos) = false →
      ∃ msg, extractFK tableName fkName frows = .error (.panic msg)) := by
  constructor
  · intro h
    obtain ⟨msg, hmsg⟩ := indexLoop_noncontiguous irows 0 true h
    exact ⟨msg, by simp [extractIndex, hmsg]⟩
  · intro h
    obtain ⟨msg, hmsg⟩ := fkLoop_noncontiguous frows 0 "" h
    exact ⟨msg, by simp [extractFK, hmsg]⟩

/-- Witness for C3 at concrete inputs: an index whose first row has
sequence number 2, and a foreign key whose rows jump from position 1 to
position 3. -/
theorem noncontiguous_seq_fatal_witness :
    (seqContiguous 0 (([⟨false, "a", 2⟩] : List IndexRow).map IndexRow.seq) = false ∧
      ∃ msg, extractIndex "t" "i" [⟨false, "a", 2⟩] = .error (.panic msg)) ∧
    (seqContiguous 0
        (([⟨"a", 1, "rt", "ra"⟩, ⟨"b", 3, "rt", "rb"⟩] : List FKRow).map FKRow.pos) = false ∧
      ∃ msg, extractFK "t" "f" [⟨"a", 1, "rt", "ra"⟩, ⟨"b", 3, "rt", "rb"⟩] =
        .error (.panic msg)) := by
  have h := noncontiguous_seq_fatal "t" "i" "f"
    [⟨false, "a", 2⟩] [⟨"a", 1, "rt", "ra"⟩, ⟨"b", 3, "rt", "rb"⟩]
  exact ⟨⟨by decide, h.1 (by decide)⟩, ⟨by decide, h.2 (by decide)⟩⟩

/-- If any column in the reported metadata fails classification, the
per-column loop of `ExtractQueryResultColumns` returns an error (the
first failing column aborts it). -/
theorem extractColumnsFromMeta_mem_error (metas : List ColumnMeta) :
    ∀ m ∈ metas, ∀ e, classifyMeta m = .error e →
      ∃ e2, extractColumnsFromMeta metas = .error e2 := by
  induction metas with
  | nil => simp
  | cons m0 ms ih =>
    intro m hm e he
    match h0 : classifyMeta m0 with
    | .error e0 => exact ⟨e0, by simp [extractColumnsFromMeta, h0]⟩
    | .ok dt =>
      rcases List.mem_cons.mp hm with rfl | hm2
      · rw [h0] at he
        exact absurd he (by simp)
      · obtain ⟨e2, h2⟩ := ih m hm2 e he
        exact ⟨e2, by simp [extractColumnsFromMeta, h0, h2]⟩

/-- C4: every scan type / type-name pair not covered by the decision
table is a fatal classification failure: an unknown scan type, a
nullable-float scan type with a type name other than FLOAT/DOUBLE, and a
nullable-int scan type with a type name outside the known integer
families all classify to the `bad()` panic, never to a default canonical
type; and if any result column of a query fails classification,
`ExtractQueryResultColumns` aborts with the propagated panic. -/
theorem uncovered_pair_fatal (name : String) (u : Bool) (len : Nat)
    (conn : Conn) (q : String) (metas : List ColumnMeta) (m : ColumnMeta)
    (e : ClassifyErr) :
    classifyColumn .unknown name u len = .error ⟨.unknown, name⟩ ∧
    (name ≠ "FLOAT" → name ≠ "DOUBLE" →
      classifyColumn .nullFloat name u len = .error ⟨.nullFloat, name⟩) ∧
    (name ∉ (["TINYINT", "SMALLINT", "YEAR", "MEDIUMINT", "INT", "BIGINT"] :
        List String) →
      classifyColumn .nullInt name u len = .error ⟨.nullInt, name⟩) ∧
    (conn q = .ok metas → m ∈ metas → classifyMeta m = .error e →
      ∃ e2, extractQueryResultColumns conn q = .error (.classifyPanic e2)) := by
  refine ⟨rfl, ?_, ?_, ?_⟩
  · intro h1 h2
    simp only [classifyColumn]
  · intro hname
    simp only [List.mem_cons, List.not_mem_nil, or_false, not_or] at hname
    obtain ⟨n1, n2, n3, n4, n5, n6⟩ := hname
    simp only [classifyColumn]
  · intro hconn hm he
    obtain ⟨e2, h2⟩ := extractColumnsFromMeta_mem_error metas m hm e he
    exact ⟨e2, by simp [extractQueryResultColumns, hconn, h2]⟩

/-- Witness for C4 at concrete inputs: the type name DECIMAL (which the
table does not cover for nullable floats or nullable ints) and a
one-column query result whose column is a nullable-float DECIMAL. -/
theorem uncovered_pair_fatal_witness :
    classifyColumn .unknown "DECIMAL" false 0 = .error ⟨.unknown, "DECIMAL"⟩ ∧
    classifyColumn .nullFloat "DECIMAL" false 0 = .error ⟨.nullFloat, "DECIMAL"⟩ ∧
    classifyColumn .nullInt "DECIMAL" false 0 = .error ⟨.nullInt, "DECIMAL"⟩ ∧
    ∃ e2, extractQueryResultColumns
        (fun _ => .ok [⟨.nullFloat, "DECIMAL", 0, 10⟩]) "SELECT d FROM t" =
      .error (.classifyPanic e2) := by
  have h := uncovered_pair_fatal "DECIMAL" false 0
    (fun _ => .ok [⟨.nullFloat, "DECIMAL", 0, 10⟩]) "SELECT d FROM t"
    [⟨.nullFloat, "DECIMAL", 0, 10⟩] ⟨.nullFloat, "DECIMAL", 0, 10⟩
    ⟨.nullFloat, "DECIMAL"⟩
  exact ⟨h.1, h.2.1 (by decide) (by decide), h.2.2.1 (by decide),
    h.2.2.2 rfl (by simp) rfl⟩

/-- A list of booleans that are all `false` has `false` as its last
element (with any default), provided it is nonempty. -/
theorem getLastD_false_of_all_false :
    ∀ (l : List Bool) (d : Bool), (∀ x ∈ l, x = false) → l ≠ [] →
      l.getLastD d = false := by
  intro l
  induction l with
  | nil => intro d _ hne; exact absurd rfl hne
  | cons a l ih =>
    intro d hall _
    rw [List.getLastD_cons]
    cases l with
    | nil => exact hall a (by simp)
    | cons b l2 =>
      exact ih a (fun x hx => hall x (List.mem_cons_of_mem a hx)) (by simp)

/-- When the `ExtractIndex` row loop succeeds, the collected column names
are the rows' column names in row order, the sequence numbers continue
contiguously from `prevSeq`, and the reported `nonUnique` is the last
row's value (or the initial value if there is no row). -/
theorem indexLoop_ok (rows : List IndexRow) :
    ∀ prevSeq nonUnique names nuOut,
      indexLoop prevSeq nonUnique rows = .ok (names, nuOut) →
      names = rows.map IndexRow.columnName ∧
      seqContiguous prevSeq (rows.map IndexRow.seq) = true ∧
      nuOut = (rows.map IndexRow.nonUnique).getLastD nonUnique := by
  induction rows with
  | nil =>
    intro prevSeq nonUnique names nuOut h
    simp only [indexLoop, Except.ok.injEq, Prod.mk.injEq] at h
    simp [h.1, h.2, seqContiguous]
  | cons r rs ih =>
    intro prevSeq nonUnique names nuOut h
    simp only [indexLoop] at h
    split at h
    · exact absurd h (by simp)
    · rename_i hseq
      split at h
      · exact absurd h (by simp)
      · rename_i names2 nu2 hrec
        simp only [Except.ok.injEq, Prod.mk.injEq] at h
        obtain ⟨hn, hnu⟩ := h
        obtain ⟨ih1, ih2, ih3⟩ := ih r.seq r.nonUnique names2 nu2 hrec
        subst hn hnu
        refine ⟨by simp [ih1], ?_,
          by rw [List.map_cons, List.getLastD_cons]; exact ih3⟩
        simp only [List.map_cons, seqContiguous, Bool.and_eq_true, beq_iff_eq]
        exact ⟨by omega, ih2⟩

/-- C9: on every successful `ExtractIndex`, `isPrimary` holds exactly
when the index name is "PRIMARY"; the returned column names are the
rows' column names in the (contiguous, 1-based) sequence order; and when
every returned row is marked unique (`NON_UNIQUE = 0`), the result has
`isUnique = true`. -/
theorem extractIndex_ok_spec (tableName indexName : String)
    (rows : List IndexRow) (res : IndexResult)
    (h : extractIndex tableName indexName rows = .ok res) :
    (res.isPrimary = true ↔ indexName = "PRIMARY") ∧
    res.columnNames = rows.map IndexRow.columnName ∧
    seqContiguous 0 (rows.map IndexRow.seq) = true ∧
    ((∀ r ∈ rows, r.nonUnique = false) → res.isUnique = true) := by
  unfold extractIndex at h
  split at h
  · exact absurd h (by simp)
  · rename_i names nonUnique hloop
    split at h
    · exact absurd h (by simp)
    · rename_i hne
      obtain ⟨h1, h2, h3⟩ := indexLoop_ok rows 0 true names nonUnique hloop
      injection h with h
      subst h
      have hrows : rows ≠ [] := by
        intro hr
        subst hr
        simp [h1] at hne
      refine ⟨by simp, h1, h2, ?_⟩
      intro hall
      have hlast : (rows.map IndexRow.nonUnique).getLastD true = false :=
        getLastD_false_of_all_false _ true (by simpa using hall) (by simpa using hrows)
      show (!nonUnique) = true
      rw [h3, hlast]
      rfl

/-- Witness for C9 at a concrete input: a 3-column composite unique
index not named "PRIMARY" yields the columns in declared order,
`isUnique = true`, `isPrimary = false`. -/
theorem extractIndex_ok_spec_witness :
    ((({ columnNames := ["a", "b", "c"], isPrimary := false, isUnique := true } :
        IndexResult).isPrimary = true) ↔ ("idx3" : String) = "PRIMARY") ∧
    ({ columnNames := ["a", "b", "c"], isPrimary := false, isUnique := true } :
        IndexResult).columnNames =
      ([⟨false, "a", 1⟩, ⟨false, "b", 2⟩, ⟨false, "c", 3⟩] :
        List IndexRow).map IndexRow.columnName ∧
    seqContiguous 0
      (([⟨false, "a", 1⟩, ⟨false, "b", 2⟩, ⟨false, "c", 3⟩] :
        List IndexRow).map IndexRow.seq) = true ∧
    ({ columnNames := ["a", "b", "c"], isPrimary := false, isUnique := true } :
        IndexResult).isUnique = true := by
  have h := extractIndex_ok_spec "t" "idx3"
    [⟨false, "a", 1⟩, ⟨false, "b", 2⟩, ⟨false, "c", 3⟩]
    { columnNames := ["a", "b", "c"], isPrimary := false, isUnique := true } rfl
  exact ⟨h.1, h.2.1, h.2.2.1, h.2.2.2 (by decide)⟩

/-- The directive chain of the probe/final example: a literal text node
"SELECT ", a `<replace>` element with text "1+1" and attribute
`with="?"` run through `replaceDirective.Initialize`, and a literal text
node " AS x". -/
def exampleChain : Except String (List StmtDirective) :=
  match replaceInitialize { text := "1+1", attrs := [("with", "?")] } with
  | .error e => .error e
  | .ok r =>
    .ok [ .text (textInitialize "SELECT "), .replace r,
          .text (textInitialize " AS x") ]

/-- C5: for the chain Literal("SELECT ") + Replace(origin="1+1",
with="?") + Literal(" AS x"), concatenating the `GenerateQuery()` outputs
in document order yields the probe text "SELECT 1+1 AS x" and
concatenating the `Generate()` outputs yields the final text
"SELECT ? AS x". -/
theorem replace_chain_probe_and_final :
    ∃ chain, exampleChain = .ok chain ∧
      concatGen StmtDirective.generateQuery chain = .ok "SELECT 1+1 AS x" ∧
      concatGen StmtDirective.generate chain = .ok "SELECT ? AS x" := by
  refine ⟨[ .text ⟨"SELECT "⟩, .replace ⟨"1+1", "?"⟩, .text ⟨" AS x"⟩ ], rfl, rfl, rfl⟩

/-- C7: `replaceDirective.Initialize` fails with the descriptive error
message naming the missing "with" attribute whenever the element's
"with" attribute is absent or empty (returning no directive, so no field
is set), and succeeds when it is non-empty, storing the element's text
as `origin` and the attribute value as the replacement. -/
theorem replaceInitialize_spec (elem : Element) :
    (elem.selectAttrValue "with" "" = "" →
      replaceInitialize elem =
        .error "Missing \x27with\x27 attribute in <replace> directive") ∧
    (∀ w, elem.selectAttrValue "with" "" = w → w ≠ "" →
      replaceInitialize elem = .ok { origin := elem.text, withVal := w }) := by
  constructor
  · intro h
    simp [replaceInitialize, h]
  · intro w hw hne
    simp [replaceInitialize, hw, hne]

/-- Witness for C7 at concrete inputs: an element without the "with"
attribute fails, an element with `with="?"` succeeds. -/
theorem replaceInitialize_spec_witness :
    replaceInitialize { text := "1+1", attrs := [] } =
      .error "Missing \x27with\x27 attribute in <replace> directive" ∧
    replaceInitialize { text := "1+1", attrs := [("with", "?")] } =
      .ok { origin := "1+1", withVal := "?" } :=
  ⟨(replaceInitialize_spec { text := "1+1", attrs := [] }).1 rfl,
   (replaceInitialize_spec { text := "1+1", attrs := [("with", "?")] }).2
     "?" rfl (by decide)⟩

/-- C10: for every literal text directive, `Generate()` and
`GenerateQuery()` return the same string - the raw character data stored
at `Initialize` - and always succeed; `ProcessQueryResult()` leaves the
result column names and types unchanged and returns nil; hence over a
chain of only literal directives, probe query text and final query text
coincide. -/
theorem textDirective_probe_eq_final (charData : String)
    (names : List String) (types : List ColumnMeta)
    (chain : List StmtDirective) :
    (StmtDirective.text (textInitialize charData)).generate = .ok charData ∧
    (StmtDirective.text (textInitialize charData)).generateQuery = .ok charData ∧
    (StmtDirective.text (textInitialize charData)).processQueryResult names types =
      .ok (names, types) ∧
    (chain.all StmtDirective.isTextDirective = true →
      concatGen StmtDirective.generateQuery chain =
        concatGen StmtDirective.generate chain) := by
  refine ⟨rfl, rfl, rfl, ?_⟩
  intro hall
  induction chain with
  | nil => rfl
  | cons d ds ih =>
    simp only [List.all_cons, Bool.and_eq_true] at hall
    obtain ⟨hd, hds⟩ := hall
    cases d with
    | text t =>
      simp only [concatGen, StmtDirective.generate, StmtDirective.generateQuery,
        ih hds]
    | replace r => simp [StmtDirective.isTextDirective] at hd

/-- Witness for C10 at a concrete input: a chain of two literal
directives has identical probe and final text. -/
theorem textDirective_probe_eq_final_witness :
    ([ .text ⟨"SELECT 1"⟩, .text ⟨" FROM t"⟩ ] :
        List StmtDirective).all StmtDirective.isTextDirective = true ∧
    concatGen StmtDirective.generateQuery
        [ .text ⟨"SELECT 1"⟩, .text ⟨" FROM t"⟩ ] =
      concatGen StmtDirective.generate
        [ .text ⟨"SELECT 1"⟩, .text ⟨" FROM t"⟩ ] :=
  ⟨by decide,
   (textDirective_probe_eq_final "" [] []
     [ .text ⟨"SELECT 1"⟩, .text ⟨" FROM t"⟩ ]).2.2.2 (by decide)⟩
